import Mathlib

/-!
Verification of the xtask test harness of the defmt repository.

The repository ships one source file, `xtask/src/main.rs`: the CLI
dispatcher, the global error accumulator and the host/cross/book/lint/ui
test drivers.  Those are embedded directly from the source below
(`Cmd`, `runTests`, `test_host_cmds`, ..., `dispatch`, `mainRun`).

The snapshot testing engine itself lives in `xtask/src/snapshot.rs`,
which is not part of the sources provided; only its callers and the
specification describe it.  That part is modelled from the spec: the
catalog, fixture runner, output normalizer, comparator and aggregator
(`SnapshotCase`, `CapturedOutput`, `normalize`, `runCase`, `runCatalog`,
`test_snapshot`).
-/

namespace Xtask

/-! ## Snapshot engine (modelled from the spec) -/

/-- Modelled from the spec: a fragment of one output line produced by a
fixture.  `snapshot.rs` is missing from the sources, so output text is
modelled abstractly: a stable fragment is machine-independent text, a
volatile fragment (absolute path, timestamp, address) carries a kind
used by the masking rules and a machine-specific payload. -/
inductive Token where
  | stable (s : String)
  | volatile (kind : String) (payload : String)
  deriving DecidableEq, Repr

/-- Modelled from the spec: the raw text produced by running a fixture —
an ordered sequence of lines plus the process exit status
(`CapturedOutput` in the spec's data model, normally produced by the
missing `snapshot.rs`). -/
structure CapturedOutput where
  lines : List (List Token)
  exitCode : Int
  deriving DecidableEq, Repr

/-- Modelled from the spec: an entry of the closed snapshot catalog of
the missing `snapshot.rs` — a unique name, the golden-file path and the
build/run configuration distinguishing cases that share a fixture. -/
structure SnapshotCase where
  name : String
  goldenPath : String
  features : List String
  deriving DecidableEq, Repr

/-- Modelled from the spec: outcome of asking the external
command-execution capability to build and run one fixture (the missing
fixture runner of `snapshot.rs`): either the fixture could not be
built/launched at all, or it ran to completion with captured output. -/
inductive BuildResult where
  | buildFailed
  | ran (out : CapturedOutput)
  deriving DecidableEq, Repr

/-- Golden files on disk, keyed by path; contents are lines of text. -/
def FS : Type := String → Option (List String)

/-- Modelled from the spec: the environment a snapshot run executes in —
how each fixture behaves when built, and whether a golden write at a
given path succeeds (I/O errors). -/
structure World where
  fixture : String → BuildResult
  writeOk : String → Bool

/-- Rendering of one fragment under the fixed masking rules: stable text
is kept, a volatile fragment is replaced by the placeholder of its kind. -/
def renderTok : Token → String
  | .stable s => s
  | .volatile kind _ => "<" ++ kind ++ ">"

/-- One masked output line. -/
def normalizeLine (l : List Token) : String :=
  String.join (l.map renderTok)

/-- Modelled from the spec: the output normalizer of the missing
`snapshot.rs` — masks volatile fragments of every captured line,
ignoring the exit status, yielding the `NormalizedOutput` used for
comparison. -/
def normalize (c : CapturedOutput) : List String :=
  c.lines.map normalizeLine

/-- Two fragments agree on everything the masking rules keep: equal
stable text, or volatile fragments of the same kind (payloads free). -/
def stableEqTok : Token → Token → Bool
  | .stable s, .stable t => s == t
  | .volatile k _, .volatile k2 _ => k == k2
  | _, _ => false

/-- Line-wise extension of `stableEqTok`. -/
def stableEqLine : List Token → List Token → Bool
  | [], [] => true
  | t :: ts, u :: us => stableEqTok t u && stableEqLine ts us
  | _, _ => false

/-- Output-wise extension of `stableEqTok`: same shape, volatile
payloads free — the machine-specific variance masking must remove. -/
def stableEqLines : List (List Token) → List (List Token) → Bool
  | [], [] => true
  | l :: ls, m :: ms => stableEqLine l m && stableEqLines ls ms
  | _, _ => false

/-- First position where golden and normalized output differ: the index
together with the expected and actual line there (absent past the end of
the shorter side); `none` when the outputs are identical. -/
def firstDiff : List String → List String → Option (Nat × Option String × Option String)
  | [], [] => none
  | [], a :: _ => some (0, none, some a)
  | e :: _, [] => some (0, some e, none)
  | e :: es, a :: bs =>
    if e = a then
      (firstDiff es bs).map (fun p => (p.1 + 1, p.2))
    else
      some (0, some e, some a)

/-- Modelled from the spec: the per-case outcome taxonomy of the missing
`snapshot.rs` (`SnapshotResult` plus the error taxonomy of the spec). -/
inductive SnapshotResult where
  | pass
  | mismatch (index : Nat) (expected actual : Option String)
  | missingGolden
  | buildFailure
  | recorded
  | writeFailure
  deriving DecidableEq, Repr

/-- Exact line-by-line comparison of golden against normalized output. -/
def compareLines (golden norm : List String) : SnapshotResult :=
  match firstDiff golden norm with
  | none => .pass
  | some (i, e, a) => .mismatch i e a

/-- Observable steps taken while processing cases, used to state that
nothing is built, compared or written on an early failure. -/
inductive Ev where
  | build (name : String)
  | compare (name : String)
  | writeGolden (path : String)
  deriving DecidableEq, Repr

/-- Outcome of processing one case: its result, the golden store
afterwards, and the steps taken. -/
structure CaseRun where
  result : SnapshotResult
  fs : FS
  trace : List Ev

/-- Modelled from the spec: one case through the pipeline of the missing
`snapshot.rs` — build and run the fixture (`BuildFailure` when it cannot
be built), normalize, then either compare against the golden (check
mode: `MissingGolden` / `Pass` / `Mismatch`) or write the normalized
output as the new golden (overwrite mode: `Recorded` / `WriteFailure`). -/
def runCase (w : World) (overwrite : Bool) (fs : FS) (c : SnapshotCase) : CaseRun :=
  match w.fixture c.name with
  | .buildFailed => ⟨.buildFailure, fs, [.build c.name]⟩
  | .ran out =>
    let norm := normalize out
    if overwrite then
      if w.writeOk c.goldenPath then
        ⟨.recorded, fun p => if p = c.goldenPath then some norm else fs p,
          [.build c.name, .writeGolden c.goldenPath]⟩
      else
        ⟨.writeFailure, fs, [.build c.name, .writeGolden c.goldenPath]⟩
    else
      match fs c.goldenPath with
      | none => ⟨.missingGolden, fs, [.build c.name, .compare c.name]⟩
      | some golden => ⟨compareLines golden norm, fs, [.build c.name, .compare c.name]⟩

/-- Modelled from the spec: the aggregator loop of the missing
`snapshot.rs` — every catalog entry in declared order, continuing past
individual failures, threading the golden store. -/
def runCatalog (w : World) (overwrite : Bool) : FS → List SnapshotCase → List (String × SnapshotResult) × FS × List Ev
  | fs, [] => ([], fs, [])
  | fs, c :: cs =>
    let r := runCase w overwrite fs c
    let rest := runCatalog w overwrite r.fs cs
    ((c.name, r.result) :: rest.1, rest.2.1, r.trace ++ rest.2.2)

/-- Lookup of a catalog entry by its unique name. -/
def lookupCase (catalog : List SnapshotCase) (name : String) : Option SnapshotCase :=
  catalog.find? (fun c => c.name == name)

/-- Modelled from the spec: selection errors — a single requested case
name not present in the closed catalog. -/
inductive SnapErr where
  | unknownCase (name : String)
  deriving DecidableEq, Repr

/-- Outcome of a whole snapshot invocation: the result sequence (or the
selection error), the golden store afterwards, and the steps taken. -/
structure SelRun where
  outcome : Except SnapErr (List (String × SnapshotResult))
  fs : FS
  trace : List Ev

/-- Modelled from the spec: the entry point of the missing `snapshot.rs`
(`test_snapshot(overwrite, single)` as called from `main.rs`) — run the
whole catalog, or exactly one named case, rejecting a name outside the
closed catalog with `UnknownCase` before any step runs. -/
def test_snapshot (w : World) (catalog : List SnapshotCase) (overwrite : Bool)
    (single : Option String) (fs : FS) : SelRun :=
  match single with
  | none =>
    let r := runCatalog w overwrite fs catalog
    ⟨.ok r.1, r.2.1, r.2.2⟩
  | some n =>
    match lookupCase catalog n with
    | none => ⟨.error (.unknownCase n), fs, []⟩
    | some c =>
      let r := runCatalog w overwrite fs [c]
      ⟨.ok r.1, r.2.1, r.2.2⟩

/-! ## CLI dispatcher and glue drivers (embedded from `xtask/src/main.rs`) -/

/-- One invocation of the external command-execution capability
(`utils::run_command(tool, args, cwd, env)` in `main.rs`). -/
structure Cmd where
  tool : String
  args : List String
  cwd : Option String
  env : List (String × String)
  deriving DecidableEq, Repr

/-- The `TestCommand` subcommand enum of `main.rs`. -/
inductive TestCommand where
  | testAll
  | testBackcompat
  | testBook
  | testCross
  | testHost
  | testLint
  | testUi
  | testSnapshot (overwrite : Bool) (single : Option String)
  deriving DecidableEq, Repr

/-- The `Options` CLI structure of `main.rs`: subcommand plus the two
global flags. -/
structure Options where
  cmd : TestCommand
  deny_warnings : Bool
  keep_targets : Bool
  deriving DecidableEq, Repr

/-- `do_test` of `main.rs`: run one test closure; on error, append
`"context: error"` to the accumulated error list (`ALL_ERRORS`), and
continue either way.  The external execution of a command is an oracle
`exec` returning `none` on success and `some message` on failure. -/
def do_test (exec : Cmd → Option String) (errs : List String) (c : Cmd) (context : String) : List String :=
  match exec c with
  | none => errs
  | some e => errs ++ [context ++ ": " ++ e]

/-- Run a sequence of `do_test` invocations in order, threading the
accumulated error list. -/
def runTests (exec : Cmd → Option String) (errs : List String) : List (Cmd × String) → List String
  | [] => errs
  | t :: ts => runTests exec (do_test exec errs t.1 t.2) ts

/-- The commands issued by `test_host` of `main.rs`, in order, each with
its error context: four `cargo check` invocations carrying
`RUSTFLAGS="--deny warnings"` exactly when `deny_warnings` is set, then
two `cargo test` invocations with no extra environment. -/
def test_host_cmds (deny_warnings : Bool) : List (Cmd × String) :=
  let env := if deny_warnings then [("RUSTFLAGS", "--deny warnings")] else []
  [ (⟨"cargo", ["check"], none, env⟩, "host"),
    (⟨"cargo", ["check", "--features", "unstable-test"], none, env⟩, "host"),
    (⟨"cargo", ["check", "--features", "alloc"], none, env⟩, "host"),
    (⟨"cargo", ["check", "--features", "ip_in_core"], none, env⟩, "host"),
    (⟨"cargo", ["test", "--features", "unstable-test"], none, []⟩, "host"),
    (⟨"cargo", ["test", "--features", "unstable-test,alloc"], none, []⟩, "host") ]

/-- The per-target commands of `test_cross` of `main.rs`. -/
def test_cross_target_cmds (target : String) : List (Cmd × String) :=
  [ (⟨"cargo", ["check", "--target", target, "-p", "defmt"], none, []⟩, "cross"),
    (⟨"cargo", ["check", "--target", target, "-p", "defmt", "--features", "alloc"], none, []⟩, "cross"),
    (⟨"cargo", ["check", "--target", target, "-p", "defmt", "--features", "ip_in_core"], none, []⟩, "cross") ]

/-- The commands issued by `test_cross` of `main.rs`, in order. -/
def test_cross_cmds : List (Cmd × String) :=
  (["thumbv6m-none-eabi", "thumbv8m.base-none-eabi", "riscv32i-unknown-none-elf"].flatMap
    test_cross_target_cmds) ++
  [ (⟨"cargo", ["check", "--target", "thumbv6m-none-eabi", "--workspace", "--exclude",
        "defmt-itm", "--exclude", "firmware"], some "firmware", []⟩, "cross"),
    (⟨"cargo", ["check", "--target", "thumbv7em-none-eabi"], some "firmware", []⟩, "cross"),
    (⟨"cargo", ["check", "--target", "thumbv6m-none-eabi", "--features", "print-defmt"],
        some "firmware/panic-probe", []⟩, "cross"),
    (⟨"cargo", ["check", "--target", "thumbv6m-none-eabi", "--features", "print-rtt"],
        some "firmware/panic-probe", []⟩, "cross"),
    (⟨"cargo", ["clippy", "--target", "thumbv7m-none-eabi", "--", "-D", "warnings"],
        some "firmware/", []⟩, "lint") ]

/-- The commands issued by `test_book` of `main.rs`, in order. -/
def test_book_cmds : List (Cmd × String) :=
  [ (⟨"cargo", ["clean"], none, []⟩, "book"),
    (⟨"cargo", ["build", "-p", "defmt", "-p", "defmt-decoder", "--features", "unstable-test"],
        none, []⟩, "book"),
    (⟨"cargo", ["build", "-p", "cortex-m"], some "firmware", []⟩, "book"),
    (⟨"mdbook", ["test", "-L", "../target/debug", "-L", "../target/debug/deps", "-L",
        "../firmware/target/debug", "-L", "../firmware/target/debug/deps"], some "book",
        [("CARGO_CRATE_NAME", "krate")]⟩, "book") ]

/-- The commands issued by `test_lint` of `main.rs`, in order. -/
def test_lint_cmds : List (Cmd × String) :=
  [ (⟨"cargo", ["fmt", "--", "--check"], none, []⟩, "lint"),
    (⟨"cargo", ["fmt", "--", "--check"], some "firmware/", []⟩, "lint"),
    (⟨"cargo", ["clippy", "--", "-D", "warnings"], none, []⟩, "lint") ]

/-- The command issued by `test_ui` of `main.rs`. -/
def test_ui_cmds : List (Cmd × String) :=
  [ (⟨"cargo", ["test"], some "firmware/defmt-test/macros", []⟩, "ui") ]

/-- Target install/uninstall side effects of `main.rs`. -/
inductive MainEv where
  | installTargets
  | uninstallTargets (ts : List String)
  deriving DecidableEq, Repr

/-- The cleanup step at the end of `main`: targets are uninstalled iff
`keep_targets` is unset and the install step actually added targets. -/
def targetCleanup (keep_targets : Bool) (ts : List String) : List MainEv :=
  if keep_targets then []
  else if ts.isEmpty then []
  else [MainEv.uninstallTargets ts]

/-- The dispatch `match` of `main`, producing the final accumulated
error list and the target install/uninstall events.  `snapshotErrs` and
`backcompatErrs` abstract the errors pushed by `snapshot::test_snapshot`
and `backcompat::test`, whose sources are not provided.  `installResult`
abstracts `targets::install()`: `none` means it failed, on which `main`
panics via `expect` (modelled as overall result `none`, reached only for
the commands that install targets). -/
def dispatch (exec : Cmd → Option String)
    (snapshotErrs : Bool → Option String → List String)
    (backcompatErrs : List String)
    (installResult : Option (List String))
    (opt : Options) : Option (List String × List MainEv) :=
  match opt.cmd with
  | .testBook => some (runTests exec [] test_book_cmds, [])
  | .testBackcompat => some (backcompatErrs, [])
  | .testHost => some (runTests exec [] (test_host_cmds opt.deny_warnings), [])
  | .testLint => some (runTests exec [] test_lint_cmds, [])
  | .testUi => some (runTests exec [] test_ui_cmds, [])
  | .testCross =>
    match installResult with
    | none => none
    | some ts =>
      some (runTests exec [] test_cross_cmds,
        MainEv.installTargets :: targetCleanup opt.keep_targets ts)
  | .testSnapshot overwrite single =>
    match installResult with
    | none => none
    | some ts =>
      some (snapshotErrs overwrite single,
        MainEv.installTargets :: targetCleanup opt.keep_targets ts)
  | .testAll =>
    match installResult with
    | none => none
    | some ts =>
      let e1 := runTests exec [] (test_host_cmds opt.deny_warnings)
      let e2 := runTests exec e1 test_cross_cmds
      let e3 := (e2 ++ snapshotErrs false none) ++ backcompatErrs
      let e4 := runTests exec e3 test_book_cmds
      some (runTests exec e4 test_lint_cmds,
        MainEv.installTargets :: targetCleanup opt.keep_targets ts)

/-- The final step of `main`: an error mentioning every accumulated
failure when the list is non-empty, success otherwise. -/
def finishMain (errs : List String) : Except String Unit :=
  if errs.isEmpty then Except.ok ()
  else Except.error ("some tests failed: " ++ String.intercalate ", " errs)

/-- `main` of `main.rs`: dispatch the subcommand, clean up installed
targets, then succeed or fail on the accumulated error list.  `none`
models the `expect` panic when target installation fails. -/
def mainRun (exec : Cmd → Option String)
    (snapshotErrs : Bool → Option String → List String)
    (backcompatErrs : List String)
    (installResult : Option (List String))
    (opt : Options) : Option (Except String Unit × List String × List MainEv) :=
  (dispatch exec snapshotErrs backcompatErrs installResult opt).map
    (fun r => (finishMain r.1, r.1, r.2))

/-! ## Concrete sample data (spec's example scenarios), used by witnesses -/

/-- The spec's example case: catalog entry `"basic-log"`. -/
def sampleCase : SnapshotCase :=
  ⟨"basic-log", "snapshot-tests/basic-log/expected.out", []⟩

/-- Output of the `"basic-log"` fixture: `INFO hello`, exit 0. -/
def sampleOutput : CapturedOutput := ⟨[[.stable "INFO hello"]], 0⟩

/-- A world where every fixture prints `INFO hello` and every golden
write succeeds. -/
def sampleWorld : World := ⟨fun _ => .ran sampleOutput, fun _ => true⟩

/-- The same world except every fixture exits with status 1. -/
def sampleWorldExit1 : World := ⟨fun _ => .ran ⟨sampleOutput.lines, 1⟩, fun _ => true⟩

/-- A one-entry catalog holding the spec's example case. -/
def sampleCatalog : List SnapshotCase := [sampleCase]

/-- A golden store with no files. -/
def emptyFS : FS := fun _ => none

/-- Output of the spec's `"panic-demo"` scenario on one machine: a
panic message embedding an absolute path. -/
def panicOutputA : CapturedOutput :=
  ⟨[[.stable "ERROR panicked at ", .volatile "path" "/home/alice/src/main.rs"]], 101⟩

/-- The `"panic-demo"` output on another machine: same stable text,
different absolute path. -/
def panicOutputB : CapturedOutput :=
  ⟨[[.stable "ERROR panicked at ", .volatile "path" "/tmp/build/src/main.rs"]], 101⟩

/-- A command oracle on which every command succeeds. -/
def execNone : Cmd → Option String := fun _ => none

/-- Snapshot-error oracle pushing no errors. -/
def snapNone : Bool → Option String → List String := fun _ _ => []

/-- CLI options: `test-cross`, warnings not denied, targets not kept. -/
def optCross : Options := ⟨.testCross, false, false⟩

/-- CLI options: `test-host`, warnings not denied, targets not kept. -/
def optHost : Options := ⟨.testHost, false, false⟩

/-- The install/uninstall events of a `test-cross` run that installed
one target and did not keep it. -/
def mainEvs0 : List MainEv :=
  [.installTargets, .uninstallTargets ["thumbv6m-none-eabi"]]

/-! ## Helper lemmas -/

theorem firstDiff_self (l : List String) : firstDiff l l = none := by
  induction l with
  | nil => rfl
  | cons x xs ih => simp [firstDiff, ih]

theorem compareLines_self (l : List String) : compareLines l l = .pass := by
  simp [compareLines, firstDiff_self]

theorem compareLines_ne_buildFailure (g n : List String) :
    compareLines g n ≠ .buildFailure := by
  unfold compareLines
  cases h : firstDiff g n with
  | none => simp
  | some p => obtain ⟨i, e, a⟩ := p; simp

theorem stableEqTok_render {t u : Token} (h : stableEqTok t u = true) :
    renderTok t = renderTok u := by
  cases t <;> cases u <;> simp [stableEqTok] at h <;> simp [renderTok, h]

theorem stableEqLine_map {l m : List Token} (h : stableEqLine l m = true) :
    l.map renderTok = m.map renderTok := by
  induction l generalizing m with
  | nil => cases m with
    | nil => rfl
    | cons u us => simp [stableEqLine] at h
  | cons t ts ih =>
    cases m with
    | nil => simp [stableEqLine] at h
    | cons u us =>
      simp [stableEqLine, Bool.and_eq_true] at h
      simp [stableEqTok_render h.1, ih h.2]

theorem stableEqLine_normalize {l m : List Token} (h : stableEqLine l m = true) :
    normalizeLine l = normalizeLine m := by
  unfold normalizeLine
  rw [stableEqLine_map h]

theorem stableEqLines_normalize {ls ms : List (List Token)} (h : stableEqLines ls ms = true) :
    ls.map normalizeLine = ms.map normalizeLine := by
  induction ls generalizing ms with
  | nil => cases ms with
    | nil => rfl
    | cons m ms2 => simp [stableEqLines] at h
  | cons l ls2 ih =>
    cases ms with
    | nil => simp [stableEqLines] at h
    | cons m ms2 =>
      simp [stableEqLines, Bool.and_eq_true] at h
      simp [stableEqLine_normalize h.1, ih h.2]

theorem mem_targetCleanup_uninstall (keep : Bool) (ts ts2 : List String) :
    MainEv.uninstallTargets ts2 ∈ targetCleanup keep ts ↔
      (keep = false ∧ ts ≠ [] ∧ ts2 = ts) := by
  cases keep with
  | true => simp [targetCleanup]
  | false =>
    cases ts with
    | nil => simp [targetCleanup]
    | cons t ts3 => simp [targetCleanup]

theorem install_not_mem_targetCleanup (keep : Bool) (ts : List String) :
    MainEv.installTargets ∉ targetCleanup keep ts := by
  cases keep with
  | true => simp [targetCleanup]
  | false =>
    cases ts with
    | nil => simp [targetCleanup]
    | cons t ts3 => simp [targetCleanup]

theorem runCase_check_fs (w : World) (fs : FS) (c : SnapshotCase) :
    (runCase w false fs c).fs = fs := by
  unfold runCase
  cases w.fixture c.name with
  | buildFailed => rfl
  | ran out =>
    cases fs c.goldenPath <;> rfl

theorem runCatalog_check_fs (w : World) (fs : FS) (cat : List SnapshotCase) :
    (runCatalog w false fs cat).2.1 = fs := by
  induction cat generalizing fs with
  | nil => rfl
  | cons c cs ih =>
    simp [runCatalog, runCase_check_fs, ih]

/-! ## Claims -/

/-- Claim C1: for every snapshot case, running overwrite mode for that
case (build succeeds, golden write succeeds) and then immediately
running check mode for the same case with no intervening source changes
yields `Pass`: the golden written by overwrite mode compares equal to
the normalized output of the subsequent check run. -/
theorem overwrite_then_check_pass (w : World) (fs : FS) (c : SnapshotCase)
    (out : CapturedOutput)
    (hfix : w.fixture c.name = .ran out)
    (hw : w.writeOk c.goldenPath = true) :
    (runCase w true fs c).result = .recorded ∧
    (runCase w false (runCase w true fs c).fs c).result = .pass := by
  simp [runCase, hfix, hw, compareLines_self]

/-- Witness for C1 at the spec's `"basic-log"` scenario. -/
theorem overwrite_then_check_pass_witness :
    sampleWorld.fixture sampleCase.name = .ran sampleOutput ∧
    sampleWorld.writeOk sampleCase.goldenPath = true ∧
    ((runCase sampleWorld true emptyFS sampleCase).result = .recorded ∧
     (runCase sampleWorld false (runCase sampleWorld true emptyFS sampleCase).fs
        sampleCase).result = .pass) :=
  ⟨rfl, rfl, overwrite_then_check_pass sampleWorld emptyFS sampleCase sampleOutput rfl rfl⟩

/-- Claim C2: requesting a single snapshot case by a name that is not in
the closed catalog fails with `UnknownCase` before any build step: no
fixture build, no comparison, no golden write happens (the trace is
empty and the golden store is untouched). -/
theorem unknown_case_rejected (w : World) (fs : FS) (catalog : List SnapshotCase)
    (overwrite : Bool) (n : String)
    (h : lookupCase catalog n = none) :
    (test_snapshot w catalog overwrite (some n) fs).outcome = .error (.unknownCase n) ∧
    (test_snapshot w catalog overwrite (some n) fs).trace = [] ∧
    (test_snapshot w catalog overwrite (some n) fs).fs = fs := by
  simp [test_snapshot, h]

/-- Witness for C2: the name `"no-such-case"` is not in the sample
catalog and is rejected with no steps taken. -/
theorem unknown_case_rejected_witness :
    lookupCase sampleCatalog "no-such-case" = none ∧
    ((test_snapshot sampleWorld sampleCatalog false (some "no-such-case") emptyFS).outcome
        = .error (.unknownCase "no-such-case") ∧
     (test_snapshot sampleWorld sampleCatalog false (some "no-such-case") emptyFS).trace = [] ∧
     (test_snapshot sampleWorld sampleCatalog false (some "no-such-case") emptyFS).fs = emptyFS) :=
  ⟨by decide,
   unknown_case_rejected sampleWorld emptyFS sampleCatalog false "no-such-case" (by decide)⟩

/-- Claim C4: failures are isolated — running "all cases" over any
catalog reports one result per catalog entry, in catalog order, whatever
the per-case outcomes are (a failing case does not abort the remaining
ones); and the per-check accumulator `do_test` of `main.rs` only ever
appends the captured error and continues. -/
theorem failures_isolated (w : World) (fs : FS) (overwrite : Bool)
    (cat : List SnapshotCase) :
    (runCatalog w overwrite fs cat).1.map Prod.fst = cat.map SnapshotCase.name ∧
    (∀ (exec : Cmd → Option String) (errs : List String) (c : Cmd) (context : String),
      ∃ add, do_test exec errs c context = errs ++ add) := by
  constructor
  · induction cat generalizing fs with
    | nil => rfl
    | cons c cs ih => simp [runCatalog, ih]
  · intro exec errs c context
    unfold do_test
    cases exec c with
    | none => exact ⟨[], by simp⟩
    | some e => exact ⟨[context ++ ": " ++ e], rfl⟩

/-- Claim C7: the output normalizer is deterministic — normalizing the
same `CapturedOutput` twice gives the same `NormalizedOutput`, and two
captures that agree on everything except volatile payloads (two
independent runs on possibly different machines) normalize identically. -/
theorem normalize_deterministic :
    (∀ c : CapturedOutput, normalize c = normalize c) ∧
    (∀ c1 c2 : CapturedOutput, stableEqLines c1.lines c2.lines = true →
      normalize c1 = normalize c2) := by
  refine ⟨fun c => rfl, fun c1 c2 h => ?_⟩
  unfold normalize
  exact stableEqLines_normalize h

/-- Witness for C7: the spec's `"panic-demo"` output captured on two
machines with different absolute paths normalizes identically. -/
theorem normalize_deterministic_witness :
    stableEqLines panicOutputA.lines panicOutputB.lines = true ∧
    normalize panicOutputA = normalize panicOutputB :=
  ⟨by decide, normalize_deterministic.2 panicOutputA panicOutputB (by decide)⟩

/-- Claim C8: check mode is idempotent — it never changes the golden
store, so running it a second time over the same catalog from the state
the first run left behind yields the identical result sequence, store
and trace. -/
theorem check_mode_idempotent (w : World) (fs : FS) (cat : List SnapshotCase) :
    runCatalog w false ((runCatalog w false fs cat).2.1) cat = runCatalog w false fs cat := by
  rw [runCatalog_check_fs]

/-- Claim C5: in overwrite mode a case is never reported `Pass`,
`Mismatch` or `MissingGolden`; the result is independent of the previous
golden store (stale or mismatched goldens included); no comparison step
runs; and when the fixture builds and the write succeeds the case is
reported `Recorded` with the normalized output written verbatim as the
new golden. -/
theorem overwrite_mode_recorded (w : World) (fs : FS) (c : SnapshotCase) :
    ((runCase w true fs c).result ≠ .pass ∧
     (∀ i e a, (runCase w true fs c).result ≠ .mismatch i e a) ∧
     (runCase w true fs c).result ≠ .missingGolden) ∧
    (∀ fs2 : FS, (runCase w true fs2 c).result = (runCase w true fs c).result) ∧
    (∀ n, Ev.compare n ∉ (runCase w true fs c).trace) ∧
    (∀ out, w.fixture c.name = .ran out → w.writeOk c.goldenPath = true →
      (runCase w true fs c).result = .recorded ∧
      (runCase w true fs c).fs c.goldenPath = some (normalize out)) := by
  cases hfix : w.fixture c.name with
  | buildFailed =>
    refine ⟨⟨?_, ?_, ?_⟩, ?_, ?_, ?_⟩ <;>
      simp [runCase, hfix]
  | ran out =>
    cases hw : w.writeOk c.goldenPath with
    | true =>
      refine ⟨⟨?_, ?_, ?_⟩, ?_, ?_, ?_⟩ <;>
        simp [runCase, hfix, hw]
    | false =>
      refine ⟨⟨?_, ?_, ?_⟩, ?_, ?_, ?_⟩ <;>
        simp [runCase, hfix, hw]

/-- Witness for C5 at the spec's `"basic-log"` scenario: overwrite mode
reports `Recorded` and leaves the golden equal to the normalized
output. -/
theorem overwrite_mode_recorded_witness :
    sampleWorld.fixture sampleCase.name = .ran sampleOutput ∧
    sampleWorld.writeOk sampleCase.goldenPath = true ∧
    ((runCase sampleWorld true emptyFS sampleCase).result = .recorded ∧
     (runCase sampleWorld true emptyFS sampleCase).fs sampleCase.goldenPath
        = some (normalize sampleOutput)) :=
  ⟨rfl, rfl,
   (overwrite_mode_recorded sampleWorld emptyFS sampleCase).2.2.2 sampleOutput rfl rfl⟩

/-- Claim C6: the fixture runner yields captured output on process
completion regardless of the exit status — two worlds whose fixture
produces the same lines under different exit codes give the same
per-case result, which is never `BuildFailure`; `BuildFailure` is
signalled exactly when the fixture cannot be built or launched. -/
theorem runner_exit_code_irrelevant (w1 w2 : World) (fs : FS) (c : SnapshotCase)
    (lines : List (List Token)) (e1 e2 : Int) (overwrite : Bool)
    (h1 : w1.fixture c.name = .ran ⟨lines, e1⟩)
    (h2 : w2.fixture c.name = .ran ⟨lines, e2⟩)
    (hw : w1.writeOk = w2.writeOk) :
    (runCase w1 overwrite fs c).result = (runCase w2 overwrite fs c).result ∧
    (runCase w1 overwrite fs c).result ≠ .buildFailure ∧
    (∀ w : World, w.fixture c.name = .buildFailed →
      (runCase w overwrite fs c).result = .buildFailure) := by
  refine ⟨?_, ?_, ?_⟩
  · cases overwrite with
    | true => simp [runCase, h1, h2, hw, normalize]
    | false =>
      cases hg : fs c.goldenPath <;>
        simp [runCase, h1, h2, hg, normalize]
  · cases overwrite with
    | true =>
      cases hwr : w1.writeOk c.goldenPath <;>
        simp [runCase, h1, hwr]
    | false =>
      cases hg : fs c.goldenPath with
      | none => simp [runCase, h1, hg]
      | some g => simp [runCase, h1, hg, compareLines_ne_buildFailure]
  · intro w hfail
    simp [runCase, hfail]

/-- Witness for C6: the same fixture output under exit codes 0 and 1
yields the same check-mode result, not a build failure. -/
theorem runner_exit_code_irrelevant_witness :
    sampleWorld.fixture sampleCase.name = .ran ⟨sampleOutput.lines, 0⟩ ∧
    sampleWorldExit1.fixture sampleCase.name = .ran ⟨sampleOutput.lines, 1⟩ ∧
    sampleWorld.writeOk = sampleWorldExit1.writeOk ∧
    ((runCase sampleWorld false emptyFS sampleCase).result
        = (runCase sampleWorldExit1 false emptyFS sampleCase).result ∧
     (runCase sampleWorld false emptyFS sampleCase).result ≠ .buildFailure ∧
     (∀ w : World, w.fixture sampleCase.name = .buildFailed →
       (runCase w false emptyFS sampleCase).result = .buildFailure)) :=
  ⟨rfl, rfl, rfl,
   runner_exit_code_irrelevant sampleWorld sampleWorldExit1 emptyFS sampleCase
     sampleOutput.lines 0 1 false rfl rfl rfl⟩

/-- Claim C3: when `main` completes (target installation did not panic),
it exits non-zero exactly when the accumulated failure list is
non-empty, and returns success when no test produced an error. -/
theorem main_exit_iff_errors (exec : Cmd → Option String)
    (snapshotErrs : Bool → Option String → List String)
    (backcompatErrs : List String) (installResult : Option (List String))
    (opt : Options) (res : Except String Unit) (errs : List String) (evs : List MainEv)
    (h : mainRun exec snapshotErrs backcompatErrs installResult opt = some (res, errs, evs)) :
    res = Except.ok () ↔ errs = [] := by
  unfold mainRun at h
  cases hd : dispatch exec snapshotErrs backcompatErrs installResult opt with
  | none => rw [hd] at h; simp at h
  | some r =>
    rw [hd] at h
    simp only [Option.map_some', Option.some.injEq, Prod.mk.injEq] at h
    obtain ⟨hres, herrs, -⟩ := h
    subst hres herrs
    cases r.1 with
    | nil => simp [finishMain]
    | cons e es => simp [finishMain]

/-- Witness for C3: a successful `test-host` run accumulates no errors
and `main` returns success. -/
theorem main_exit_iff_errors_witness :
    mainRun execNone snapNone [] none optHost = some (Except.ok (), [], []) ∧
    ((Except.ok () : Except String Unit) = Except.ok () ↔ ([] : List String) = []) :=
  ⟨rfl, main_exit_iff_errors execNone snapNone [] none optHost (Except.ok ()) [] [] rfl⟩

/-- Claim C9: in `test_host` the `RUSTFLAGS="--deny warnings"`
environment is passed exactly when `deny_warnings` is set and only to
the four `cargo check` invocations; the two `cargo test` invocations
always run with no extra environment; these six are all the commands. -/
theorem test_host_env_policy (deny_warnings : Bool) :
    ((test_host_cmds deny_warnings).filter
        (fun p => p.1.args.head? == some "check")).map (fun p => p.1.env)
      = List.replicate 4 (if deny_warnings then [("RUSTFLAGS", "--deny warnings")] else []) ∧
    ((test_host_cmds deny_warnings).filter
        (fun p => p.1.args.head? == some "test")).map (fun p => p.1.env)
      = List.replicate 2 [] ∧
    (test_host_cmds deny_warnings).length = 6 := by
  cases deny_warnings <;> exact ⟨rfl, rfl, rfl⟩

/-- Claim C10: when `main` completes, the cross-compilation targets were
installed exactly for the `test-all`, `test-cross` and `test-snapshot`
subcommands, and the added targets are uninstalled exactly when the
install step ran, `keep_targets` is unset and the installed set is
non-empty. -/
theorem targets_lifecycle (exec : Cmd → Option String)
    (snapshotErrs : Bool → Option String → List String)
    (backcompatErrs : List String) (installResult : Option (List String))
    (opt : Options) (res : Except String Unit) (errs : List String) (evs : List MainEv)
    (h : mainRun exec snapshotErrs backcompatErrs installResult opt = some (res, errs, evs)) :
    ((MainEv.installTargets ∈ evs) ↔
      (opt.cmd = .testAll ∨ opt.cmd = .testCross ∨
        ∃ ov s, opt.cmd = .testSnapshot ov s)) ∧
    (∀ ts, (MainEv.uninstallTargets ts ∈ evs) ↔
      (installResult = some ts ∧ MainEv.installTargets ∈ evs ∧
       opt.keep_targets = false ∧ ts ≠ [])) := by
  obtain ⟨cmd, dw, keep⟩ := opt
  cases cmd <;> cases installResult <;>
    simp only [mainRun, dispatch, Option.map_some', Option.map_none', Option.some.injEq,
      Prod.mk.injEq, reduceCtorEq, false_and] at h <;>
    obtain ⟨-, -, hevs⟩ := h <;>
    subst hevs <;>
    refine ⟨?_, fun ts => ?_⟩ <;>
    simp [install_not_mem_targetCleanup, mem_targetCleanup_uninstall] <;>
    aesop

/-- Witness for C10: a completed `test-cross` run that installed one
target, with `keep_targets` unset, uninstalls exactly that target. -/
theorem targets_lifecycle_witness :
    mainRun execNone snapNone [] (some ["thumbv6m-none-eabi"]) optCross
      = some (Except.ok (), [], mainEvs0) ∧
    (((MainEv.installTargets ∈ mainEvs0) ↔
       (optCross.cmd = .testAll ∨ optCross.cmd = .testCross ∨
         ∃ ov s, optCross.cmd = .testSnapshot ov s)) ∧
     (∀ ts, (MainEv.uninstallTargets ts ∈ mainEvs0) ↔
       (some ["thumbv6m-none-eabi"] = some ts ∧ MainEv.installTargets ∈ mainEvs0 ∧
        optCross.keep_targets = false ∧ ts ≠ []))) :=
  ⟨rfl,
   targets_lifecycle execNone snapNone [] (some ["thumbv6m-none-eabi"]) optCross
     (Except.ok ()) [] mainEvs0 rfl⟩

end Xtask
